import Mathlib

set_option autoImplicit false

namespace JupyterGIS

/-! Shallow embedding of `gis_document.py` (jupytergis_lab notebook API):
the replicated document model (sources / layers / layerTree / options),
the object factory (`ObjectFactoryManager`), the filter operations and the
client-facing layer builders.  Python dictionaries are modelled as
insertion-ordered association lists over `String` keys; JSON values as the
inductive `Value`; raised Python exceptions as explicit error results. -/

/-- JSON-like values stored in the document: `null` models Python `None`,
`listV`/`obj` model JSON arrays and objects (used for `bounds`,
`urlParameters`, GeoJSON data and coordinate lists). Numbers are carried
opaquely as integers; no arithmetic is ever performed on them. -/
inductive Value where
  | null
  | str (s : String)
  | num (n : Int)
  | bool (b : Bool)
  | listV (xs : List Value)
  | obj (fields : List (String × Value))


/-- `d.get(k)` on an insertion-ordered dictionary: first binding wins. -/
def mapGet {α : Type} (m : List (String × α)) (k : String) : Option α :=
  match m with
  | [] => none
  | (k2, v) :: rest => if k2 = k then some v else mapGet rest k

/-- `k in d` on a dictionary. -/
def mapHasKey {α : Type} (m : List (String × α)) (k : String) : Bool :=
  match m with
  | [] => false
  | (k2, _) :: rest => if k2 = k then true else mapHasKey rest k

/-- `d[k] = v` on an insertion-ordered dictionary: an existing key keeps its
position and gets the new value, a new key is appended at the end. -/
def mapSet {α : Type} (m : List (String × α)) (k : String) (v : α) : List (String × α) :=
  if mapHasKey m k then m.map (fun p => if p.1 = k then (k, v) else p)
  else m ++ [(k, v)]

/-- One `{feature, operator, value}` filter predicate.  All three slots hold
`Value` because the builders store Python `None` in them when the caller
supplies no filter arguments. -/
structure FilterPredicate where
  feature : Value
  operator : Value
  value : Value


/-- The `filters` record of a layer: `appliedFilters` plus the shared
`logicalOp`. -/
structure LayerFilters where
  appliedFilters : List FilterPredicate
  logicalOp : Value


/-- The state of the `filters` key of a stored layer dictionary.  Python
distinguishes the key being absent (`'filters' not in layer`), the key being
present with value `None` (what the factory stores when the raw description
had no filters, since the pydantic model serializes the extra
`filters=None` attribute), and the key holding an actual filters record. -/
inductive FiltersField where
  | absent
  | nullVal
  | filters (f : LayerFilters)


/-- A layer value as stored in the `layers` map (the JSON form of
`JGISLayer`: keys `name`, `type`, `visible`, `parameters`, `filters`). -/
structure JGISLayer where
  name : String
  type : String
  visible : Bool
  parameters : List (String × Value)
  filtersField : FiltersField


/-- A source value as stored in the `sources` map (the JSON form of
`JGISSource`: keys `name`, `type`, `parameters`). -/
structure JGISSource where
  name : String
  type : String
  parameters : List (String × Value)


/-- The four replicated containers of a `GISDocument`.  The layer tree only
ever receives layer-id strings from the code in scope, so it is modelled as
a list of ids. -/
structure GISDocument where
  sources : List (String × JGISSource)
  layers : List (String × JGISLayer)
  layerTree : List String
  options : List (String × Value)


/-- A raw layer description handed to the factory: the dictionary literal
built by the builders, with keys `type`, `name`, `visible`, `parameters`,
`filters`.  `name` is taken as always present (every call site supplies
it); `visible` defaults to `True` via `data.get("visible", True)`. -/
structure RawLayer where
  type : Option String
  name : String
  visible : Option Bool
  parameters : List (String × Value)
  filters : Option LayerFilters


/-- A raw source description handed to the factory: keys `type`, `name`,
`parameters`. -/
structure RawSource where
  type : Option String
  name : String
  parameters : List (String × Value)


/-- A registered schema is the ordered list of declared parameter field
names (`Model.__fields__`). -/
abbrev Schema := List String

/-- The registration table of `ObjectFactoryManager` (`self._factories`). -/
abbrev Factories := List (String × Schema)

/-- `ObjectFactoryManager.register_factory`: registers a schema under a type
tag only if the tag is not already present. -/
def register_factory (facs : Factories) (shape_type : String) (schema : Schema) : Factories :=
  if mapHasKey facs shape_type then facs else facs ++ [(shape_type, schema)]

/-- Modelled from the spec: the layer type tags of the `LayerType` enum
(defined in `objects.py`, which is not in scope).  Only their mutual
distinctness matters; the spec lists the layer kinds raster, vector,
vector-tile, hillshade, image, web-gl. -/
def LayerType.RasterLayer : String := "RasterLayer"

def LayerType.VectorLayer : String := "VectorLayer"

def LayerType.VectorTileLayer : String := "VectorTileLayer"

def LayerType.HillshadeLayer : String := "HillshadeLayer"

def LayerType.ImageLayer : String := "ImageLayer"

def LayerType.WebGlLayer : String := "WebGlLayer"

/-- Modelled from the spec: the source type tags of the `SourceType` enum
(defined in `objects.py`, which is not in scope); source kinds raster-tile,
vector-tile, GeoJSON, image, video. -/
def SourceType.RasterSource : String := "RasterSource"

def SourceType.VectorTileSource : String := "VectorTileSource"

def SourceType.GeoJSONSource : String := "GeoJSONSource"

def SourceType.ImageSource : String := "ImageSource"

def SourceType.VideoSource : String := "VideoSource"

/-- Modelled from the spec: declared fields of the raster layer parameter
model `IRasterLayer` (`objects.py` is not in scope); the spec's raster
scenario shows parameters `source` and `opacity`. -/
def IRasterLayer : Schema := ["source", "opacity"]

/-- Modelled from the spec: declared fields of `IVectorLayer`, per the
GeoJSON builder description (source, render type, color, opacity). -/
def IVectorLayer : Schema := ["source", "type", "color", "opacity"]

/-- Modelled from the spec: declared fields of `IVectorTileLayer`, per the
vector-tile builder description (source, render type, opacity, named
sub-layer, color). -/
def IVectorTileLayer : Schema := ["source", "type", "opacity", "sourceLayer", "color"]

/-- Modelled from the spec: declared fields of `IHillshadeLayer` (not
exercised by any builder in scope). -/
def IHillshadeLayer : Schema := ["source"]

/-- Modelled from the spec: declared fields of `IImageLayer` (not exercised
by any builder in scope). -/
def IImageLayer : Schema := ["source", "opacity"]

/-- Modelled from the spec: declared fields of `IWebGlLayer` (not exercised
by any builder in scope). -/
def IWebGlLayer : Schema := ["source"]

/-- Modelled from the spec: declared fields of `IRasterSource`, matching
the raw source bag assembled by the raster builder. -/
def IRasterSource : Schema :=
  ["url", "minZoom", "maxZoom", "attribution", "htmlAttribution", "provider", "bounds",
    "urlParameters"]

/-- Modelled from the spec: declared fields of `IVectorTileSource`,
matching the raw source bag assembled by the vector-tile builder. -/
def IVectorTileSource : Schema :=
  ["url", "minZoom", "maxZoom", "attribution", "htmlAttribution", "provider", "bounds",
    "urlParameters"]

/-- Modelled from the spec: declared fields of `IGeoJSONSource` (embedded
GeoJSON data). -/
def IGeoJSONSource : Schema := ["data"]

/-- Modelled from the spec: declared fields of `IImageSource` (image url
and corner coordinates). -/
def IImageSource : Schema := ["url", "coordinates"]

/-- Modelled from the spec: declared fields of `IVideoSource` (candidate
urls and corner coordinates). -/
def IVideoSource : Schema := ["urls", "coordinates"]

/-- The module-level singleton registry after the eleven
`register_factory` calls at the bottom of `gis_document.py`. -/
def OBJECT_FACTORY : Factories :=
  let f := register_factory [] LayerType.RasterLayer IRasterLayer
  let f := register_factory f LayerType.VectorLayer IVectorLayer
  let f := register_factory f LayerType.VectorTileLayer IVectorTileLayer
  let f := register_factory f LayerType.HillshadeLayer IHillshadeLayer
  let f := register_factory f LayerType.WebGlLayer IWebGlLayer
  let f := register_factory f LayerType.ImageLayer IImageLayer
  let f := register_factory f SourceType.VectorTileSource IVectorTileSource
  let f := register_factory f SourceType.RasterSource IRasterSource
  let f := register_factory f SourceType.GeoJSONSource IGeoJSONSource
  let f := register_factory f SourceType.ImageSource IImageSource
  let f := register_factory f SourceType.VideoSource IVideoSource
  f

/-- The field-extraction loop shared by `create_layer` and `create_source`:
`args[field] = params.get(field, None)` for each declared field of the
resolved model, in declaration order. -/
def extractFields (schema : Schema) (params : List (String × Value)) : List (String × Value) :=
  schema.map (fun field => (field, (mapGet params field).getD Value.null))

/-- `ObjectFactoryManager.create_layer`: returns `none` (Python `None`)
when the type tag is falsy (absent or empty) or not registered; otherwise
builds the layer object with the extracted parameters.  The pydantic model
always serializes the `filters` attribute, so a raw description without
filters yields a stored layer whose `filters` key is present and null. -/
def create_layer (facs : Factories) (data : RawLayer) : Option JGISLayer :=
  match data.type with
  | none => none
  | some object_type =>
    if object_type = "" then none
    else
      match mapGet facs object_type with
      | none => none
      | some schema =>
        some
          { name := data.name
            type := object_type
            visible := data.visible.getD true
            parameters := extractFields schema data.parameters
            filtersField :=
              match data.filters with
              | none => FiltersField.nullVal
              | some f => FiltersField.filters f }

/-- `ObjectFactoryManager.create_source`: same resolution and extraction as
`create_layer`, producing a source object. -/
def create_source (facs : Factories) (data : RawSource) : Option JGISSource :=
  match data.type with
  | none => none
  | some object_type =>
    if object_type = "" then none
    else
      match mapGet facs object_type with
      | none => none
      | some schema =>
        some
          { name := data.name
            type := object_type
            parameters := extractFields schema data.parameters }

/-- A raised Python exception, as observed by the caller.  `valueError`
carries the message of a `ValueError`; `typeError` stands for the
`TypeError` raised when subscripting or assigning into a `None` filters
value; `attributeError` for calling `.json()` on the `None` returned by a
failed factory call. -/
inductive PyError where
  | valueError (msg : String)
  | typeError
  | attributeError

/-- `GISDocument._add_source`: stores the (serialized) source object under
a newly generated id and returns the id.  The random `uuid4` id is supplied
as an explicit argument. -/
def _add_source (doc : GISDocument) (new_object : JGISSource) (id : String) :
    GISDocument × String :=
  ({ doc with sources := mapSet doc.sources id new_object }, id)

/-- `GISDocument._add_layer`: stores the layer object under a newly
generated id, appends the id at the end of `layerTree`, and returns the
id. -/
def _add_layer (doc : GISDocument) (new_object : JGISLayer) (id : String) :
    GISDocument × String :=
  ({ doc with
      layers := mapSet doc.layers id new_object
      layerTree := doc.layerTree ++ [id] }, id)

/-- The call pattern `self._add_layer(OBJECT_FACTORY.create_layer(data))`
used by every builder: a `None` factory result makes `_add_layer` raise an
`AttributeError` on `None.json()` before any container is touched. -/
def createAndAddLayer (doc : GISDocument) (facs : Factories) (data : RawLayer) (id : String) :
    GISDocument × Except PyError String :=
  match create_layer facs data with
  | none => (doc, Except.error PyError.attributeError)
  | some l =>
    let r := _add_layer doc l id
    (r.1, Except.ok r.2)

/-- The call pattern `self._add_source(OBJECT_FACTORY.create_source(data))`
used by every builder; same failure mode as `createAndAddLayer`. -/
def createAndAddSource (doc : GISDocument) (facs : Factories) (data : RawSource) (id : String) :
    GISDocument × Except PyError String :=
  match create_source facs data with
  | none => (doc, Except.error PyError.attributeError)
  | some s =>
    let r := _add_source doc s id
    (r.1, Except.ok r.2)

/-- Python `==` between a stored predicate slot and a string argument: only
an equal string compares equal (`None == s` and any non-string value
compare false). -/
def valueEqStr (v : Value) (s : String) : Bool :=
  match v with
  | Value.str a => a == s
  | _ => false

/-- `GISDocument.add_filter`.  The result pairs the document after the call
with the raised exception, if any: a raise leaves the document unchanged. -/
def add_filter (doc : GISDocument) (layer_id logical_op feature oper : String) (value : Value) :
    GISDocument × Option PyError :=
  match mapGet doc.layers layer_id with
  | none => (doc, some (PyError.valueError ("No layer found with ID: " ++ layer_id)))
  | some layer =>
    match layer.filtersField with
    | FiltersField.absent =>
      let layer2 : JGISLayer :=
        { layer with
            filtersField := FiltersField.filters
              { appliedFilters := [⟨Value.str feature, Value.str oper, value⟩]
                logicalOp := Value.str logical_op } }
      ({ doc with layers := mapSet doc.layers layer_id layer2 }, none)
    | FiltersField.nullVal => (doc, some PyError.typeError)
    | FiltersField.filters f =>
      let f2 : LayerFilters :=
        { appliedFilters := f.appliedFilters ++ [⟨Value.str feature, Value.str oper, value⟩]
          logicalOp := Value.str logical_op }
      ({ doc with
          layers := mapSet doc.layers layer_id { layer with filtersField := FiltersField.filters f2 } },
        none)

/-- The `next((f for f in appliedFilters if f[feature] == feature), None)`
search of `update_filter`: first predicate whose feature equals the given
string. -/
def findFeature (preds : List FilterPredicate) (feature : String) : Option FilterPredicate :=
  preds.find? (fun p => valueEqStr p.feature feature)

/-- The in-place value assignment of `update_filter`: replace the `value`
slot of the first predicate whose feature matches, leaving everything else
as it was. -/
def updateFirstMatch (preds : List FilterPredicate) (feature : String) (value : Value) :
    List FilterPredicate :=
  match preds with
  | [] => []
  | p :: rest =>
    if valueEqStr p.feature feature then { p with value := value } :: rest
    else p :: updateFirstMatch rest feature value

/-- `GISDocument.update_filter`.  The `operator` argument is accepted and
ignored, as in the source.  The not-found message interpolates the rebound
loop variable, which is `None` at that point. -/
def update_filter (doc : GISDocument) (layer_id logical_op feature oper : String) (value : Value) :
    GISDocument × Option PyError :=
  match mapGet doc.layers layer_id with
  | none => (doc, some (PyError.valueError ("No layer found with ID: " ++ layer_id)))
  | some layer =>
    match layer.filtersField with
    | FiltersField.absent =>
      (doc, some (PyError.valueError ("No filters applied to layer: " ++ layer_id)))
    | FiltersField.nullVal => (doc, some PyError.typeError)
    | FiltersField.filters f =>
      match findFeature f.appliedFilters feature with
      | none =>
        (doc, some (PyError.valueError ("No feature found with ID: None in layer: " ++ layer_id)))
      | some _ =>
        let f2 : LayerFilters :=
          { appliedFilters := updateFirstMatch f.appliedFilters feature value
            logicalOp := Value.str logical_op }
        ({ doc with
            layers := mapSet doc.layers layer_id
              { layer with filtersField := FiltersField.filters f2 } },
          none)

/-- `GISDocument.clear_filters`. -/
def clear_filters (doc : GISDocument) (layer_id : String) : GISDocument × Option PyError :=
  match mapGet doc.layers layer_id with
  | none => (doc, some (PyError.valueError ("No layer found with ID: " ++ layer_id)))
  | some layer =>
    match layer.filtersField with
    | FiltersField.absent =>
      (doc, some (PyError.valueError ("No filters applied to layer: " ++ layer_id)))
    | FiltersField.nullVal => (doc, some PyError.typeError)
    | FiltersField.filters f =>
      ({ doc with
          layers := mapSet doc.layers layer_id
            { layer with filtersField := FiltersField.filters { f with appliedFilters := [] } } },
        none)

/-- A possibly-`None` string argument as stored into a JSON slot. -/
def optStr : Option String → Value
  | none => Value.null
  | some s => Value.str s

/-- A possibly-`None` structured argument as stored into a JSON slot. -/
def optVal : Option Value → Value
  | none => Value.null
  | some v => v

/-- `GISDocument.add_raster_layer`.  The generated source and layer ids are
supplied as explicit arguments. -/
def add_raster_layer (doc : GISDocument) (url name attribution : String) (opacity : Value)
    (source_id layer_id : String) : GISDocument × Except PyError String :=
  let source : RawSource :=
    { type := some SourceType.RasterSource
      name := name ++ " Source"
      parameters :=
        [("url", Value.str url), ("minZoom", Value.num 0), ("maxZoom", Value.num 24),
          ("attribution", Value.str attribution), ("htmlAttribution", Value.str attribution),
          ("provider", Value.str ""), ("bounds", Value.listV []), ("urlParameters", Value.obj [])] }
  match create_source OBJECT_FACTORY source with
  | none => (doc, Except.error PyError.attributeError)
  | some s =>
    let r := _add_source doc s source_id
    let rawLayer : RawLayer :=
      { type := some LayerType.RasterLayer
        name := name
        visible := some true
        parameters := [("source", Value.str r.2), ("opacity", opacity)]
        filters := none }
    match create_layer OBJECT_FACTORY rawLayer with
    | none => (r.1, Except.error PyError.attributeError)
    | some l =>
      let r2 := _add_layer r.1 l layer_id
      (r2.1, Except.ok r2.2)

/-- `GISDocument.add_vectortile_layer`.  The network enumeration
`get_source_layer_names` is an external collaborator, supplied as a
function argument.  A `None` sub-layer name can never be a member of the
list of available names, so the membership test fails for it, as `None not
in source_layers` does in Python. -/
def add_vectortile_layer (doc : GISDocument) (get_source_layer_names : String → List String)
    (url name : String) (source_layer : Option String) (attribution : String)
    (min_zoom max_zoom : Int) (type color : String) (opacity : Value)
    (logical_op feature oper : Option String) (value : Option Value)
    (source_id layer_id : String) : GISDocument × Except PyError String :=
  let source_layers := get_source_layer_names url
  let resolved :=
    if source_layer.isNone && source_layers.length == 1 then source_layers.head?
    else source_layer
  let ok :=
    match resolved with
    | none => false
    | some sl => source_layers.contains sl
  if !ok then
    (doc,
      Except.error (PyError.valueError
        ("source_layer should be one of " ++ String.intercalate ", " source_layers)))
  else
    let source : RawSource :=
      { type := some SourceType.VectorTileSource
        name := name ++ " Source"
        parameters :=
          [("url", Value.str url), ("minZoom", Value.num min_zoom),
            ("maxZoom", Value.num max_zoom), ("attribution", Value.str attribution),
            ("htmlAttribution", Value.str attribution), ("provider", Value.str ""),
            ("bounds", Value.listV []), ("urlParameters", Value.obj [])] }
    match create_source OBJECT_FACTORY source with
    | none => (doc, Except.error PyError.attributeError)
    | some s =>
      let r := _add_source doc s source_id
      let rawLayer : RawLayer :=
        { type := some LayerType.VectorTileLayer
          name := name
          visible := some true
          parameters :=
            [("source", Value.str r.2), ("type", Value.str type), ("opacity", opacity),
              ("sourceLayer", optStr resolved), ("color", Value.str color)]
          filters := some
            { appliedFilters := [⟨optStr feature, optStr oper, optVal value⟩]
              logicalOp := optStr logical_op } }
      match create_layer OBJECT_FACTORY rawLayer with
      | none => (r.1, Except.error PyError.attributeError)
      | some l =>
        let r2 := _add_layer r.1 l layer_id
        (r2.1, Except.ok r2.2)

/-- `GISDocument.add_geojson_layer`.  Reading the file at `path` is an
external collaborator, supplied as a function argument. -/
def add_geojson_layer (doc : GISDocument) (readGeoJSONFile : String → Value)
    (path : Option String) (data : Option Value) (name : String) (type color : String)
    (opacity : Value) (logical_op feature oper : Option String) (value : Option Value)
    (source_id layer_id : String) : GISDocument × Except PyError String :=
  if path.isNone && data.isNone then
    (doc, Except.error (PyError.valueError "Cannot create a GeoJSON layer without data"))
  else if path.isSome && data.isSome then
    (doc, Except.error (PyError.valueError "Cannot set GeoJSON layer data and path at the same time"))
  else
    let parameters : List (String × Value) :=
      match path with
      | some p => [("data", readGeoJSONFile p)]
      | none => [("data", optVal data)]
    let source : RawSource :=
      { type := some SourceType.GeoJSONSource
        name := name ++ " Source"
        parameters := parameters }
    match create_source OBJECT_FACTORY source with
    | none => (doc, Except.error PyError.attributeError)
    | some s =>
      let r := _add_source doc s source_id
      let rawLayer : RawLayer :=
        { type := some LayerType.VectorLayer
          name := name
          visible := some true
          parameters :=
            [("source", Value.str r.2), ("type", Value.str type), ("color", Value.str color),
              ("opacity", opacity)]
          filters := some
            { appliedFilters := [⟨optStr feature, optStr oper, optVal value⟩]
              logicalOp := optStr logical_op } }
      match create_layer OBJECT_FACTORY rawLayer with
      | none => (r.1, Except.error PyError.attributeError)
      | some l =>
        let r2 := _add_layer r.1 l layer_id
        (r2.1, Except.ok r2.2)

/-- `GISDocument.add_image_layer`.  `url` and `coordinates` are optional so
that the `if url is None or coordinates is None` guard is representable. -/
def add_image_layer (doc : GISDocument) (url : Option String) (coordinates : Option Value)
    (name : String) (opacity : Value) (source_id layer_id : String) :
    GISDocument × Except PyError String :=
  if url.isNone || coordinates.isNone then
    (doc, Except.error (PyError.valueError "URL and Coordinates are required"))
  else
    let source : RawSource :=
      { type := some SourceType.ImageSource
        name := name ++ " Source"
        parameters := [("url", optStr url), ("coordinates", optVal coordinates)] }
    match create_source OBJECT_FACTORY source with
    | none => (doc, Except.error PyError.attributeError)
    | some s =>
      let r := _add_source doc s source_id
      let rawLayer : RawLayer :=
        { type := some LayerType.RasterLayer
          name := name
          visible := some true
          parameters := [("source", Value.str r.2), ("opacity", opacity)]
          filters := none }
      match create_layer OBJECT_FACTORY rawLayer with
      | none => (r.1, Except.error PyError.attributeError)
      | some l =>
        let r2 := _add_layer r.1 l layer_id
        (r2.1, Except.ok r2.2)

/-- `GISDocument.add_video_layer`. -/
def add_video_layer (doc : GISDocument) (urls : Option Value) (coordinates : Option Value)
    (name : String) (opacity : Value) (source_id layer_id : String) :
    GISDocument × Except PyError String :=
  if urls.isNone || coordinates.isNone then
    (doc, Except.error (PyError.valueError "URLs and Coordinates are required"))
  else
    let source : RawSource :=
      { type := some SourceType.VideoSource
        name := name ++ " Source"
        parameters := [("urls", optVal urls), ("coordinates", optVal coordinates)] }
    match create_source OBJECT_FACTORY source with
    | none => (doc, Except.error PyError.attributeError)
    | some s =>
      let r := _add_source doc s source_id
      let rawLayer : RawLayer :=
        { type := some LayerType.RasterLayer
          name := name
          visible := some true
          parameters := [("source", Value.str r.2), ("opacity", opacity)]
          filters := none }
      match create_layer OBJECT_FACTORY rawLayer with
      | none => (r.1, Except.error PyError.attributeError)
      | some l =>
        let r2 := _add_layer r.1 l layer_id
        (r2.1, Except.ok r2.2)

/-! Concrete sample values used by the closed witness checks. -/

/-- A fresh, empty document. -/
def emptyDoc : GISDocument := { sources := [], layers := [], layerTree := [], options := [] }

/-- A raw layer description whose type tag is not registered. -/
def rawUnknownLayer : RawLayer :=
  { type := some "bogus", name := "n", visible := none, parameters := [], filters := none }

/-- A raw source description whose type tag is not registered. -/
def rawUnknownSource : RawSource := { type := some "bogus", name := "n", parameters := [] }

/-- A raw raster layer description carrying one undeclared extra field. -/
def rawRasterLayer : RawLayer :=
  { type := some LayerType.RasterLayer
    name := "Base"
    visible := some true
    parameters := [("source", Value.str "s1"), ("opacity", Value.num 1), ("extra", Value.num 2)]
    filters := none }

/-- A raw GeoJSON source description. -/
def rawGeoJSONSource : RawSource :=
  { type := some SourceType.GeoJSONSource
    name := "G Source"
    parameters := [("data", Value.obj []), ("junk", Value.num 7)] }

/-- A concrete layer value for insertion checks. -/
def sampleLayer : JGISLayer :=
  { name := "Img"
    type := "RasterLayer"
    visible := true
    parameters := [("source", Value.str "sid"), ("opacity", Value.num 1)]
    filtersField := FiltersField.nullVal }

/-- A stored layer whose `filters` key is absent. -/
def layerNoFilters : JGISLayer :=
  { name := "L"
    type := "VectorLayer"
    visible := true
    parameters := []
    filtersField := FiltersField.absent }

/-- A stored layer with one applied filter on feature `population`. -/
def layerWithFilters : JGISLayer :=
  { name := "L"
    type := "VectorLayer"
    visible := true
    parameters := []
    filtersField := FiltersField.filters
      { appliedFilters := [⟨Value.str "population", Value.str "gt", Value.num 5⟩]
        logicalOp := Value.str "all" } }

/-- A document holding `layerNoFilters` under id `a` and `layerWithFilters`
under id `b`. -/
def sampleDoc : GISDocument :=
  { sources := []
    layers := [("a", layerNoFilters), ("b", layerWithFilters)]
    layerTree := ["a", "b"]
    options := [] }

/-! Basic lemmas about the dictionary model and the extraction loop. -/

lemma mapGet_isSome_eq_hasKey {α : Type} (m : List (String × α)) (k : String) :
    (mapGet m k).isSome = mapHasKey m k := by
  induction m with
  | nil => rfl
  | cons p rest ih =>
    obtain ⟨k2, v2⟩ := p
    by_cases h : k2 = k <;> simp [mapGet, mapHasKey, h, ih]

lemma mapGet_append_single_of_not_hasKey {α : Type} (m : List (String × α)) (k : String) (v : α)
    (h : mapHasKey m k = false) : mapGet (m ++ [(k, v)]) k = some v := by
  induction m with
  | nil => simp [mapGet]
  | cons p rest ih =>
    obtain ⟨k2, v2⟩ := p
    by_cases hk : k2 = k
    · simp [mapHasKey, hk] at h
    · have h2 : mapHasKey rest k = false := by
        simpa [mapHasKey, hk] using h
      simpa [mapGet, hk] using ih h2

lemma mapGet_map_replace_of_hasKey {α : Type} (m : List (String × α)) (k : String) (v : α)
    (h : mapHasKey m k = true) :
    mapGet (m.map fun p => if p.1 = k then (k, v) else p) k = some v := by
  induction m with
  | nil => simp [mapHasKey] at h
  | cons p rest ih =>
    obtain ⟨k2, v2⟩ := p
    rw [List.map_cons]
    by_cases hk : k2 = k
    · subst hk
      have hhead : (if (k2, v2).1 = k2 then (k2, v) else (k2, v2)) = (k2, v) := if_pos rfl
      rw [hhead]
      simp [mapGet]
    · have hhead : (if (k2, v2).1 = k then (k, v) else (k2, v2)) = (k2, v2) := if_neg hk
      rw [hhead]
      have h2 : mapHasKey rest k = true := by
        simpa [mapHasKey, hk] using h
      simpa [mapGet, hk] using ih h2

/-- Setting a key makes it retrievable with exactly the stored value. -/
lemma mapGet_set_self {α : Type} (m : List (String × α)) (k : String) (v : α) :
    mapGet (mapSet m k v) k = some v := by
  unfold mapSet
  by_cases h : mapHasKey m k
  · rw [if_pos h]
    exact mapGet_map_replace_of_hasKey m k v h
  · rw [if_neg h]
    exact mapGet_append_single_of_not_hasKey m k v (by simpa using h)

/-- Setting a key makes it present. -/
lemma mapHasKey_set_self {α : Type} (m : List (String × α)) (k : String) (v : α) :
    mapHasKey (mapSet m k v) k = true := by
  rw [← mapGet_isSome_eq_hasKey, mapGet_set_self]
  rfl

/-- Setting a fresh key grows the dictionary by exactly one entry. -/
lemma mapSet_length_of_not_hasKey {α : Type} (m : List (String × α)) (k : String) (v : α)
    (h : mapHasKey m k = false) : (mapSet m k v).length = m.length + 1 := by
  unfold mapSet
  rw [if_neg (by simp [h])]
  simp

/-- The extracted parameter bag has exactly the declared fields as keys, in
declaration order. -/
lemma extractFields_keys (schema : Schema) (ps : List (String × Value)) :
    (extractFields schema ps).map Prod.fst = schema := by
  induction schema with
  | nil => rfl
  | cons a rest ih => simpa [extractFields] using ih

/-- A declared field is extracted from the raw bag when present there, and
otherwise defaults to null. -/
lemma extractFields_get_of_mem (schema : Schema) (ps : List (String × Value)) (f : String)
    (h : f ∈ schema) :
    mapGet (extractFields schema ps) f = some ((mapGet ps f).getD Value.null) := by
  induction schema with
  | nil => cases h
  | cons a rest ih =>
    by_cases haf : a = f
    · subst haf
      simp [extractFields, mapGet]
    · have hmem : f ∈ rest := by
        rcases List.mem_cons.mp h with h1 | h1
        · exact absurd h1.symm haf
        · exact h1
      simpa [extractFields, mapGet, haf] using ih hmem

/-- A key not declared by the schema is absent from the extracted bag. -/
lemma extractFields_get_of_not_mem (schema : Schema) (ps : List (String × Value)) (k : String)
    (h : k ∉ schema) : mapGet (extractFields schema ps) k = none := by
  induction schema with
  | nil => rfl
  | cons a rest ih =>
    have hak : ¬a = k := fun hh => h (hh ▸ List.mem_cons_self a rest)
    have hrest : k ∉ rest := fun hh => h (List.mem_cons_of_mem a hh)
    simpa [extractFields, mapGet, hak] using ih hrest

/-- A predicate list in which no feature matches yields no find result. -/
lemma findFeature_eq_none (preds : List FilterPredicate) (feat : String)
    (h : ∀ q, q ∈ preds → valueEqStr q.feature feat = false) :
    findFeature preds feat = none := by
  rw [findFeature, List.find?_eq_none]
  intro p hp
  simp [h p hp]

/-- The find of `update_filter` returns the first matching predicate. -/
lemma findFeature_first (pre : List FilterPredicate) (p : FilterPredicate)
    (post : List FilterPredicate) (feat : String)
    (hpre : ∀ q, q ∈ pre → valueEqStr q.feature feat = false)
    (hp : valueEqStr p.feature feat = true) :
    findFeature (pre ++ p :: post) feat = some p := by
  induction pre with
  | nil =>
    simp only [List.nil_append, findFeature]
    exact List.find?_cons_of_pos post hp
  | cons a rest ih =>
    have ha := hpre a (List.mem_cons_self a rest)
    have ihx := ih fun q hq => hpre q (List.mem_cons_of_mem a hq)
    simp only [List.cons_append, findFeature] at ihx ⊢
    rw [List.find?_cons_of_neg _ (by simp [ha]), ihx]

/-- Replacing the value of the first match rewrites exactly that predicate
and keeps every other predicate as it was. -/
lemma updateFirstMatch_append (pre : List FilterPredicate) (p : FilterPredicate)
    (post : List FilterPredicate) (feat : String) (v : Value)
    (hpre : ∀ q, q ∈ pre → valueEqStr q.feature feat = false)
    (hp : valueEqStr p.feature feat = true) :
    updateFirstMatch (pre ++ p :: post) feat v = pre ++ { p with value := v } :: post := by
  induction pre with
  | nil => simp [updateFirstMatch, hp]
  | cons a rest ih =>
    have ha := hpre a (List.mem_cons_self a rest)
    have ihx := ih fun q hq => hpre q (List.mem_cons_of_mem a hq)
    simp [updateFirstMatch, ha, ihx]

/-- Evaluation of the vector-tile builder on the success path: the resolved
sub-layer name is available, one source and one layer are inserted, and the
tree gets the layer id. -/
lemma add_vectortile_layer_success (doc : GISDocument) (gsln : String → List String)
    (url name attribution : String) (min_zoom max_zoom : Int) (ty color : String)
    (opacity : Value) (lop feat oper : Option String) (val : Option Value) (sid lid : String)
    (source_layer : Option String) (sl : String)
    (h1 : (if source_layer.isNone && (gsln url).length == 1 then (gsln url).head?
           else source_layer) = some sl)
    (h2 : (gsln url).contains sl = true) :
    add_vectortile_layer doc gsln url name source_layer attribution min_zoom max_zoom ty color
      opacity lop feat oper val sid lid =
    ({ doc with
        sources := mapSet doc.sources sid
          { name := name ++ " Source"
            type := SourceType.VectorTileSource
            parameters := [("url", Value.str url), ("minZoom", Value.num min_zoom),
              ("maxZoom", Value.num max_zoom), ("attribution", Value.str attribution),
              ("htmlAttribution", Value.str attribution), ("provider", Value.str ""),
              ("bounds", Value.listV []), ("urlParameters", Value.obj [])] }
        layers := mapSet doc.layers lid
          { name := name
            type := LayerType.VectorTileLayer
            visible := true
            parameters := [("source", Value.str sid), ("type", Value.str ty),
              ("opacity", opacity), ("sourceLayer", Value.str sl), ("color", Value.str color)]
            filtersField := FiltersField.filters
              { appliedFilters := [⟨optStr feat, optStr oper, optVal val⟩]
                logicalOp := optStr lop } }
        layerTree := doc.layerTree ++ [lid] }, Except.ok lid) := by
  simp only [add_vectortile_layer]
  rw [h1]
  simp only [h2]
  rfl

/-- Evaluation of the GeoJSON builder when inline data (and no path) is
supplied. -/
lemma add_geojson_layer_data_eq (doc : GISDocument) (readGeoJSONFile : String → Value)
    (d : Value) (name ty color : String) (opacity : Value) (lop feat oper : Option String)
    (val : Option Value) (sid lid : String) :
    add_geojson_layer doc readGeoJSONFile none (some d) name ty color opacity lop feat oper val
      sid lid =
    ({ doc with
        sources := mapSet doc.sources sid
          { name := name ++ " Source"
            type := SourceType.GeoJSONSource
            parameters := [("data", d)] }
        layers := mapSet doc.layers lid
          { name := name
            type := LayerType.VectorLayer
            visible := true
            parameters := [("source", Value.str sid), ("type", Value.str ty),
              ("color", Value.str color), ("opacity", opacity)]
            filtersField := FiltersField.filters
              { appliedFilters := [⟨optStr feat, optStr oper, optVal val⟩]
                logicalOp := optStr lop } }
        layerTree := doc.layerTree ++ [lid] }, Except.ok lid) := rfl

/-- Evaluation of the image builder when url and coordinates are given. -/
lemma add_image_layer_eq (doc : GISDocument) (u : String) (c : Value) (name : String)
    (opacity : Value) (sid lid : String) :
    add_image_layer doc (some u) (some c) name opacity sid lid =
    ({ doc with
        sources := mapSet doc.sources sid
          { name := name ++ " Source"
            type := SourceType.ImageSource
            parameters := [("url", Value.str u), ("coordinates", c)] }
        layers := mapSet doc.layers lid
          { name := name
            type := LayerType.RasterLayer
            visible := true
            parameters := [("source", Value.str sid), ("opacity", opacity)]
            filtersField := FiltersField.nullVal }
        layerTree := doc.layerTree ++ [lid] }, Except.ok lid) := rfl

/-- Evaluation of the video builder when urls and coordinates are given. -/
lemma add_video_layer_eq (doc : GISDocument) (us : Value) (c : Value) (name : String)
    (opacity : Value) (sid lid : String) :
    add_video_layer doc (some us) (some c) name opacity sid lid =
    ({ doc with
        sources := mapSet doc.sources sid
          { name := name ++ " Source"
            type := SourceType.VideoSource
            parameters := [("urls", us), ("coordinates", c)] }
        layers := mapSet doc.layers lid
          { name := name
            type := LayerType.RasterLayer
            visible := true
            parameters := [("source", Value.str sid), ("opacity", opacity)]
            filtersField := FiltersField.nullVal }
        layerTree := doc.layerTree ++ [lid] }, Except.ok lid) := rfl

/-! Claim theorems. -/

/-- C1: for every raw description whose type tag is absent from the
factory registration table, `create_layer` and `create_source` produce no
object (the factory call fails), and the subsequent insertion attempt
raises before touching the containers, so the sources and layers maps keep
their sizes. -/
theorem claim_C1_unknown_type (doc : GISDocument) (rawL : RawLayer) (rawS : RawSource)
    (idL idS : String)
    (hL : ∀ t, rawL.type = some t → mapGet OBJECT_FACTORY t = none)
    (hS : ∀ t, rawS.type = some t → mapGet OBJECT_FACTORY t = none) :
    create_layer OBJECT_FACTORY rawL = none ∧
    create_source OBJECT_FACTORY rawS = none ∧
    createAndAddLayer doc OBJECT_FACTORY rawL idL = (doc, Except.error PyError.attributeError) ∧
    createAndAddSource doc OBJECT_FACTORY rawS idS = (doc, Except.error PyError.attributeError) ∧
    (createAndAddLayer doc OBJECT_FACTORY rawL idL).1.layers.length = doc.layers.length ∧
    (createAndAddSource doc OBJECT_FACTORY rawS idS).1.sources.length = doc.sources.length := by
  have hcl : create_layer OBJECT_FACTORY rawL = none := by
    unfold create_layer
    cases ht : rawL.type with
    | none => rfl
    | some t =>
      by_cases he : t = ""
      · simp [he]
      · simp [he, hL t ht]
  have hcs : create_source OBJECT_FACTORY rawS = none := by
    unfold create_source
    cases ht : rawS.type with
    | none => rfl
    | some t =>
      by_cases he : t = ""
      · simp [he]
      · simp [he, hS t ht]
  refine ⟨hcl, hcs, ?_, ?_, ?_, ?_⟩ <;>
    simp [createAndAddLayer, createAndAddSource, hcl, hcs]

/-- Concrete instance of C1 at an unregistered tag. -/
theorem claim_C1_unknown_type_witness :
    create_layer OBJECT_FACTORY rawUnknownLayer = none ∧
    create_source OBJECT_FACTORY rawUnknownSource = none ∧
    createAndAddLayer emptyDoc OBJECT_FACTORY rawUnknownLayer "idL" =
      (emptyDoc, Except.error PyError.attributeError) ∧
    createAndAddSource emptyDoc OBJECT_FACTORY rawUnknownSource "idS" =
      (emptyDoc, Except.error PyError.attributeError) ∧
    (createAndAddLayer emptyDoc OBJECT_FACTORY rawUnknownLayer "idL").1.layers.length =
      emptyDoc.layers.length ∧
    (createAndAddSource emptyDoc OBJECT_FACTORY rawUnknownSource "idS").1.sources.length =
      emptyDoc.sources.length :=
  claim_C1_unknown_type emptyDoc rawUnknownLayer rawUnknownSource "idL" "idS"
    (by intro t ht; simp [rawUnknownLayer] at ht; subst ht; rfl)
    (by intro t ht; simp [rawUnknownSource] at ht; subst ht; rfl)

/-- C2: `_add_layer` on a fresh id returns that id, stores the descriptor
under it in the layers map (present as a key immediately after the call),
and appends the id at the end of `layerTree`, growing the tree by exactly
one entry. -/
theorem claim_C2_add_layer (doc : GISDocument) (l : JGISLayer) (id : String)
    (hfresh : mapHasKey doc.layers id = false) :
    (_add_layer doc l id).2 = id ∧
    mapGet (_add_layer doc l id).1.layers id = some l ∧
    mapHasKey (_add_layer doc l id).1.layers id = true ∧
    (_add_layer doc l id).1.layers.length = doc.layers.length + 1 ∧
    (_add_layer doc l id).1.layerTree = doc.layerTree ++ [id] ∧
    (_add_layer doc l id).1.layerTree.length = doc.layerTree.length + 1 := by
  refine ⟨rfl, mapGet_set_self doc.layers id l, mapHasKey_set_self doc.layers id l,
    mapSet_length_of_not_hasKey doc.layers id l hfresh, rfl, by simp [_add_layer]⟩

/-- Concrete instance of C2 on the empty document. -/
theorem claim_C2_add_layer_witness :
    (_add_layer emptyDoc sampleLayer "lid").2 = "lid" ∧
    mapGet (_add_layer emptyDoc sampleLayer "lid").1.layers "lid" = some sampleLayer ∧
    mapHasKey (_add_layer emptyDoc sampleLayer "lid").1.layers "lid" = true ∧
    (_add_layer emptyDoc sampleLayer "lid").1.layers.length = emptyDoc.layers.length + 1 ∧
    (_add_layer emptyDoc sampleLayer "lid").1.layerTree = emptyDoc.layerTree ++ ["lid"] ∧
    (_add_layer emptyDoc sampleLayer "lid").1.layerTree.length =
      emptyDoc.layerTree.length + 1 :=
  claim_C2_add_layer emptyDoc sampleLayer "lid" rfl

/-- C3: for a registered type tag, the factory produces an object whose
parameter bag has exactly the declared schema fields as keys; each declared
field takes its value from the raw bag when present and null otherwise, and
any key of the raw bag that the schema does not declare is absent from the
produced bag. -/
theorem claim_C3_known_type_extraction (tL tS : String) (schemaL schemaS : Schema)
    (rawL : RawLayer) (rawS : RawSource)
    (hLt : rawL.type = some tL) (hLe : tL ≠ "") (hLs : mapGet OBJECT_FACTORY tL = some schemaL)
    (hSt : rawS.type = some tS) (hSe : tS ≠ "") (hSs : mapGet OBJECT_FACTORY tS = some schemaS) :
    (∃ l, create_layer OBJECT_FACTORY rawL = some l ∧
        l.parameters.map Prod.fst = schemaL ∧
        (∀ f, f ∈ schemaL →
          mapGet l.parameters f = some ((mapGet rawL.parameters f).getD Value.null)) ∧
        (∀ k, k ∉ schemaL → mapGet l.parameters k = none)) ∧
    (∃ s, create_source OBJECT_FACTORY rawS = some s ∧
        s.parameters.map Prod.fst = schemaS ∧
        (∀ f, f ∈ schemaS →
          mapGet s.parameters f = some ((mapGet rawS.parameters f).getD Value.null)) ∧
        (∀ k, k ∉ schemaS → mapGet s.parameters k = none)) := by
  constructor
  · have hcl : create_layer OBJECT_FACTORY rawL =
        some { name := rawL.name
               type := tL
               visible := rawL.visible.getD true
               parameters := extractFields schemaL rawL.parameters
               filtersField :=
                 match rawL.filters with
                 | none => FiltersField.nullVal
                 | some f => FiltersField.filters f } := by
      unfold create_layer
      rw [hLt]
      simp [hLe, hLs]
    refine ⟨_, hcl, extractFields_keys schemaL rawL.parameters,
      fun f hf => extractFields_get_of_mem schemaL rawL.parameters f hf,
      fun k hk => extractFields_get_of_not_mem schemaL rawL.parameters k hk⟩
  · have hcs : create_source OBJECT_FACTORY rawS =
        some { name := rawS.name
               type := tS
               parameters := extractFields schemaS rawS.parameters } := by
      unfold create_source
      rw [hSt]
      simp [hSe, hSs]
    refine ⟨_, hcs, extractFields_keys schemaS rawS.parameters,
      fun f hf => extractFields_get_of_mem schemaS rawS.parameters f hf,
      fun k hk => extractFields_get_of_not_mem schemaS rawS.parameters k hk⟩

/-- Concrete instance of C3: a raster layer bag with an undeclared extra
field and a GeoJSON source bag with an undeclared junk field. -/
theorem claim_C3_known_type_extraction_witness :
    (∃ l, create_layer OBJECT_FACTORY rawRasterLayer = some l ∧
        l.parameters.map Prod.fst = IRasterLayer ∧
        (∀ f, f ∈ IRasterLayer →
          mapGet l.parameters f = some ((mapGet rawRasterLayer.parameters f).getD Value.null)) ∧
        (∀ k, k ∉ IRasterLayer → mapGet l.parameters k = none)) ∧
    (∃ s, create_source OBJECT_FACTORY rawGeoJSONSource = some s ∧
        s.parameters.map Prod.fst = IGeoJSONSource ∧
        (∀ f, f ∈ IGeoJSONSource →
          mapGet s.parameters f =
            some ((mapGet rawGeoJSONSource.parameters f).getD Value.null)) ∧
        (∀ k, k ∉ IGeoJSONSource → mapGet s.parameters k = none)) :=
  claim_C3_known_type_extraction LayerType.RasterLayer SourceType.GeoJSONSource
    IRasterLayer IGeoJSONSource rawRasterLayer rawGeoJSONSource
    rfl (by decide) rfl rfl (by decide) rfl

/-- C4: `add_filter` fails with the layer-not-found error when the id is
absent; on a layer without a `filters` key it creates the filters record
holding exactly the one given predicate and the given logical operator; on
a layer that already has filters it appends the new predicate (the list
grows by exactly one) and overwrites `logicalOp`; in both mutation cases
the whole layer value is written back under the same id. -/
theorem claim_C4_add_filter (doc : GISDocument) (lid lop feat oper : String) (v : Value) :
    (mapGet doc.layers lid = none →
      add_filter doc lid lop feat oper v =
        (doc, some (PyError.valueError ("No layer found with ID: " ++ lid)))) ∧
    (∀ layer, mapGet doc.layers lid = some layer →
      (layer.filtersField = FiltersField.absent →
        add_filter doc lid lop feat oper v =
          ({ doc with
              layers := mapSet doc.layers lid
                { layer with
                    filtersField := FiltersField.filters
                      { appliedFilters := [⟨Value.str feat, Value.str oper, v⟩]
                        logicalOp := Value.str lop } } }, none)) ∧
      (∀ f, layer.filtersField = FiltersField.filters f →
        add_filter doc lid lop feat oper v =
          ({ doc with
              layers := mapSet doc.layers lid
                { layer with
                    filtersField := FiltersField.filters
                      { appliedFilters :=
                          f.appliedFilters ++ [⟨Value.str feat, Value.str oper, v⟩]
                        logicalOp := Value.str lop } } }, none) ∧
        (f.appliedFilters ++ [(⟨Value.str feat, Value.str oper, v⟩ : FilterPredicate)]).length =
          f.appliedFilters.length + 1)) := by
  refine ⟨?_, ?_⟩
  · intro h
    simp [add_filter, h]
  · intro layer hget
    refine ⟨?_, ?_⟩
    · intro habs
      simp [add_filter, hget, habs]
    · intro f hf
      refine ⟨?_, by simp⟩
      simp [add_filter, hget, hf]

/-- Concrete instance of C4: first filter added to a layer without a
`filters` key. -/
theorem claim_C4_add_filter_witness :
    add_filter sampleDoc "a" "all" "pop" "lt" (Value.num 3) =
      ({ sampleDoc with
          layers := mapSet sampleDoc.layers "a"
            { layerNoFilters with
                filtersField := FiltersField.filters
                  { appliedFilters := [⟨Value.str "pop", Value.str "lt", Value.num 3⟩]
                    logicalOp := Value.str "all" } } }, none) :=
  ((claim_C4_add_filter sampleDoc "a" "all" "pop" "lt" (Value.num 3)).2
    layerNoFilters rfl).1 rfl

/-- C5: `update_filter` fails with the no-filters error when the layer has
no `filters` key; when no predicate feature matches it fails with the
feature-not-found error and the document is unchanged; otherwise only the
`value` of the first matching predicate is replaced, every other predicate
and the matched predicate's feature and operator stay as they were,
`logicalOp` is overwritten, and the whole layer value is written back. -/
theorem claim_C5_update_filter (doc : GISDocument) (lid lop feat oper : String) (v : Value)
    (layer : JGISLayer) (hget : mapGet doc.layers lid = some layer) :
    (layer.filtersField = FiltersField.absent →
      update_filter doc lid lop feat oper v =
        (doc, some (PyError.valueError ("No filters applied to layer: " ++ lid)))) ∧
    (∀ f, layer.filtersField = FiltersField.filters f →
      ((∀ q, q ∈ f.appliedFilters → valueEqStr q.feature feat = false) →
        update_filter doc lid lop feat oper v =
          (doc,
            some (PyError.valueError ("No feature found with ID: None in layer: " ++ lid)))) ∧
      (∀ pre p post, f.appliedFilters = pre ++ p :: post →
        (∀ q, q ∈ pre → valueEqStr q.feature feat = false) →
        valueEqStr p.feature feat = true →
        update_filter doc lid lop feat oper v =
          ({ doc with
              layers := mapSet doc.layers lid
                { layer with
                    filtersField := FiltersField.filters
                      { appliedFilters := pre ++ { p with value := v } :: post
                        logicalOp := Value.str lop } } }, none))) := by
  refine ⟨?_, ?_⟩
  · intro habs
    simp [update_filter, hget, habs]
  · intro f hf
    refine ⟨?_, ?_⟩
    · intro hnone
      simp [update_filter, hget, hf, findFeature_eq_none f.appliedFilters feat hnone]
    · intro pre p post hsplit hpre hp
      have hfind := findFeature_first pre p post feat hpre hp
      have hupd := updateFirstMatch_append pre p post feat v hpre hp
      simp [update_filter, hget, hf, hsplit, hfind, hupd]

/-- Concrete instance of C5: the single `population` filter has its value
replaced and the logical operator switched to `any`. -/
theorem claim_C5_update_filter_witness :
    update_filter sampleDoc "b" "any" "population" "gt" (Value.num 9) =
      ({ sampleDoc with
          layers := mapSet sampleDoc.layers "b"
            { layerWithFilters with
                filtersField := FiltersField.filters
                  { appliedFilters := [⟨Value.str "population", Value.str "gt", Value.num 9⟩]
                    logicalOp := Value.str "any" } } }, none) :=
  (((claim_C5_update_filter sampleDoc "b" "any" "population" "gt" (Value.num 9)
      layerWithFilters rfl).2 _ rfl).2)
    [] ⟨Value.str "population", Value.str "gt", Value.num 5⟩ [] rfl
    (by intro q hq; cases hq) rfl

/-- C6: `clear_filters` fails with the no-filters error when the layer has
no `filters` key; otherwise it empties `appliedFilters` while the filters
record stays present with its `logicalOp` unchanged, and no other field of
the stored layer value is modified. -/
theorem claim_C6_clear_filters (doc : GISDocument) (lid : String) (layer : JGISLayer)
    (hget : mapGet doc.layers lid = some layer) :
    (layer.filtersField = FiltersField.absent →
      clear_filters doc lid =
        (doc, some (PyError.valueError ("No filters applied to layer: " ++ lid)))) ∧
    (∀ f, layer.filtersField = FiltersField.filters f →
      clear_filters doc lid =
        ({ doc with
            layers := mapSet doc.layers lid
              { name := layer.name
                type := layer.type
                visible := layer.visible
                parameters := layer.parameters
                filtersField := FiltersField.filters
                  { appliedFilters := [], logicalOp := f.logicalOp } } }, none)) := by
  refine ⟨?_, ?_⟩
  · intro habs
    simp [clear_filters, hget, habs]
  · intro f hf
    simp [clear_filters, hget, hf]

/-- Concrete instance of C6 on the layer holding one filter. -/
theorem claim_C6_clear_filters_witness :
    clear_filters sampleDoc "b" =
      ({ sampleDoc with
          layers := mapSet sampleDoc.layers "b"
            { name := "L"
              type := "VectorLayer"
              visible := true
              parameters := []
              filtersField := FiltersField.filters
                { appliedFilters := [], logicalOp := Value.str "all" } } }, none) :=
  (claim_C6_clear_filters sampleDoc "b" layerWithFilters rfl).2 _ rfl

/-- C7: the GeoJSON builder called with both a path and inline data, or with
neither, raises a `ValueError` before touching the containers: the
document, its sources and its layers are exactly as before the call. -/
theorem claim_C7_geojson_ambiguous (doc : GISDocument) (readGeoJSONFile : String → Value)
    (path : Option String) (data : Option Value) (name ty color : String) (opacity : Value)
    (lop feat oper : Option String) (val : Option Value) (sid lid : String)
    (h : (path = none ∧ data = none) ∨ (path ≠ none ∧ data ≠ none)) :
    (add_geojson_layer doc readGeoJSONFile path data name ty color opacity lop feat oper val
        sid lid).1 = doc ∧
    (∃ msg, (add_geojson_layer doc readGeoJSONFile path data name ty color opacity lop feat
        oper val sid lid).2 = Except.error (PyError.valueError msg)) ∧
    (add_geojson_layer doc readGeoJSONFile path data name ty color opacity lop feat oper val
        sid lid).1.sources = doc.sources ∧
    (add_geojson_layer doc readGeoJSONFile path data name ty color opacity lop feat oper val
        sid lid).1.layers = doc.layers := by
  rcases h with ⟨hp, hd⟩ | ⟨hp, hd⟩
  · subst hp
    subst hd
    exact ⟨rfl, ⟨"Cannot create a GeoJSON layer without data", rfl⟩, rfl, rfl⟩
  · obtain ⟨p, hp2⟩ := Option.ne_none_iff_exists'.mp hp
    obtain ⟨d, hd2⟩ := Option.ne_none_iff_exists'.mp hd
    subst hp2
    subst hd2
    exact ⟨rfl, ⟨"Cannot set GeoJSON layer data and path at the same time", rfl⟩, rfl, rfl⟩

/-- Concrete instance of C7 with both a path and inline data supplied. -/
theorem claim_C7_geojson_ambiguous_witness :
    (add_geojson_layer emptyDoc (fun _ => Value.obj []) (some "f.json") (some (Value.obj []))
        "G" "line" "#FF0000" (Value.num 1) none none none none "sid" "lid").1 = emptyDoc ∧
    (∃ msg, (add_geojson_layer emptyDoc (fun _ => Value.obj []) (some "f.json")
        (some (Value.obj [])) "G" "line" "#FF0000" (Value.num 1) none none none none "sid"
        "lid").2 = Except.error (PyError.valueError msg)) ∧
    (add_geojson_layer emptyDoc (fun _ => Value.obj []) (some "f.json") (some (Value.obj []))
        "G" "line" "#FF0000" (Value.num 1) none none none none "sid" "lid").1.sources =
      emptyDoc.sources ∧
    (add_geojson_layer emptyDoc (fun _ => Value.obj []) (some "f.json") (some (Value.obj []))
        "G" "line" "#FF0000" (Value.num 1) none none none none "sid" "lid").1.layers =
      emptyDoc.layers :=
  claim_C7_geojson_ambiguous emptyDoc (fun _ => Value.obj []) (some "f.json")
    (some (Value.obj [])) "G" "line" "#FF0000" (Value.num 1) none none none none "sid" "lid"
    (Or.inr ⟨Option.some_ne_none "f.json", Option.some_ne_none (Value.obj [])⟩)

/-- C8: when no sub-layer name is given and the source exposes exactly one
available sub-layer, that sub-layer is auto-selected and stored in the
created layer; when the given or unresolved sub-layer name is not among the
available sub-layers, the call raises a `ValueError` and the document is
exactly as before (no source or layer added). -/
theorem claim_C8_vectortile_source_layer (doc : GISDocument) (gsln : String → List String)
    (url name attribution : String) (min_zoom max_zoom : Int) (ty color : String)
    (opacity : Value) (lop feat oper : Option String) (val : Option Value) (sid lid : String) :
    (∀ s0, gsln url = [s0] →
      (add_vectortile_layer doc gsln url name none attribution min_zoom max_zoom ty color
          opacity lop feat oper val sid lid).2 = Except.ok lid ∧
      ∃ lyr, mapGet (add_vectortile_layer doc gsln url name none attribution min_zoom max_zoom
          ty color opacity lop feat oper val sid lid).1.layers lid = some lyr ∧
        mapGet lyr.parameters "sourceLayer" = some (Value.str s0)) ∧
    (∀ source_layer : Option String,
      (∀ s, (if source_layer.isNone && (gsln url).length == 1 then (gsln url).head?
             else source_layer) = some s → (gsln url).contains s = false) →
      (add_vectortile_layer doc gsln url name source_layer attribution min_zoom max_zoom ty
          color opacity lop feat oper val sid lid).1 = doc ∧
      ∃ msg, (add_vectortile_layer doc gsln url name source_layer attribution min_zoom max_zoom
          ty color opacity lop feat oper val sid lid).2 =
        Except.error (PyError.valueError msg)) := by
  constructor
  · intro s0 h
    have h1 : (if (none : Option String).isNone && (gsln url).length == 1 then (gsln url).head?
        else none) = some s0 := by simp [h]
    have h2 : (gsln url).contains s0 = true := by simp [h]
    have heq := add_vectortile_layer_success doc gsln url name attribution min_zoom max_zoom
      ty color opacity lop feat oper val sid lid none s0 h1 h2
    rw [heq]
    exact ⟨rfl, _, mapGet_set_self doc.layers lid _, rfl⟩
  · intro source_layer hbad
    simp only [add_vectortile_layer]
    rcases hres : (if source_layer.isNone && (gsln url).length == 1 then (gsln url).head?
        else source_layer) with _ | s
    · exact ⟨rfl,
        ⟨"source_layer should be one of " ++ String.intercalate ", " (gsln url), rfl⟩⟩
    · have hc := hbad s hres
      have hmem : s ∉ gsln url := by simpa using hc
      refine ⟨?_, ⟨"source_layer should be one of " ++ String.intercalate ", " (gsln url),
        ?_⟩⟩ <;> simp [hmem]

/-- Concrete instance of C8: a single available sub-layer `water` is
auto-selected, and asking for `roads` against available `[water]` fails
with the document untouched. -/
theorem claim_C8_vectortile_source_layer_witness :
    ((add_vectortile_layer emptyDoc (fun _ => ["water"]) "u" "V" none "" 0 24 "line" "#FF0000"
        (Value.num 1) none none none none "sid" "lid").2 = Except.ok "lid" ∧
      ∃ lyr, mapGet (add_vectortile_layer emptyDoc (fun _ => ["water"]) "u" "V" none "" 0 24
          "line" "#FF0000" (Value.num 1) none none none none "sid" "lid").1.layers "lid" =
        some lyr ∧
        mapGet lyr.parameters "sourceLayer" = some (Value.str "water")) ∧
    ((add_vectortile_layer emptyDoc (fun _ => ["water"]) "u" "V" (some "roads") "" 0 24 "line"
        "#FF0000" (Value.num 1) none none none none "sid" "lid").1 = emptyDoc ∧
      ∃ msg, (add_vectortile_layer emptyDoc (fun _ => ["water"]) "u" "V" (some "roads") "" 0 24
          "line" "#FF0000" (Value.num 1) none none none none "sid" "lid").2 =
        Except.error (PyError.valueError msg)) := by
  have h := claim_C8_vectortile_source_layer emptyDoc (fun _ => ["water"]) "u" "V" "" 0 24
    "line" "#FF0000" (Value.num 1) none none none none "sid" "lid"
  refine ⟨h.1 "water" rfl, h.2 (some "roads") ?_⟩
  intro s hs
  simp only [Option.isNone_some, Bool.false_and, if_neg Bool.false_ne_true,
    Option.some.injEq] at hs
  subst hs
  decide

/-- C9: the vector-tile and GeoJSON builders always store a `filters`
record, even when no filter argument is supplied: it then holds exactly one
predicate whose feature, operator and value are all null, with a null
logical operator, so the created layer is never in the no-filters state. -/
theorem claim_C9_builders_always_store_filters (doc : GISDocument)
    (gsln : String → List String) (readGeoJSONFile : String → Value) (url name : String)
    (attribution : String) (min_zoom max_zoom : Int) (ty color : String) (opacity : Value)
    (d : Value) (sid lid : String) :
    (∀ s0, gsln url = [s0] →
      ∃ lyr, mapGet (add_vectortile_layer doc gsln url name none attribution min_zoom max_zoom
          ty color opacity none none none none sid lid).1.layers lid = some lyr ∧
        lyr.filtersField = FiltersField.filters
          { appliedFilters := [⟨Value.null, Value.null, Value.null⟩]
            logicalOp := Value.null }) ∧
    (∃ lyr, mapGet (add_geojson_layer doc readGeoJSONFile none (some d) name ty color opacity
        none none none none sid lid).1.layers lid = some lyr ∧
      lyr.filtersField = FiltersField.filters
        { appliedFilters := [⟨Value.null, Value.null, Value.null⟩]
          logicalOp := Value.null }) := by
  constructor
  · intro s0 h
    have h1 : (if (none : Option String).isNone && (gsln url).length == 1 then (gsln url).head?
        else none) = some s0 := by simp [h]
    have h2 : (gsln url).contains s0 = true := by simp [h]
    have heq := add_vectortile_layer_success doc gsln url name attribution min_zoom max_zoom
      ty color opacity none none none none sid lid none s0 h1 h2
    rw [heq]
    exact ⟨_, mapGet_set_self doc.layers lid _, rfl⟩
  · rw [add_geojson_layer_data_eq doc readGeoJSONFile d name ty color opacity none none none
      none sid lid]
    exact ⟨_, mapGet_set_self doc.layers lid _, rfl⟩

/-- Concrete instance of C9 with no filter arguments supplied to either
builder. -/
theorem claim_C9_builders_always_store_filters_witness :
    (∃ lyr, mapGet (add_vectortile_layer emptyDoc (fun _ => ["water"]) "u" "V" none "" 0 24
        "line" "#FF0000" (Value.num 1) none none none none "sid" "lid").1.layers "lid" =
      some lyr ∧
      lyr.filtersField = FiltersField.filters
        { appliedFilters := [⟨Value.null, Value.null, Value.null⟩]
          logicalOp := Value.null }) ∧
    (∃ lyr, mapGet (add_geojson_layer emptyDoc (fun _ => Value.obj []) none
        (some (Value.obj [])) "V" "line" "#FF0000" (Value.num 1) none none none none "sid"
        "lid").1.layers "lid" = some lyr ∧
      lyr.filtersField = FiltersField.filters
        { appliedFilters := [⟨Value.null, Value.null, Value.null⟩]
          logicalOp := Value.null }) := by
  have h := claim_C9_builders_always_store_filters emptyDoc (fun _ => ["water"])
    (fun _ => Value.obj []) "u" "V" "" 0 24 "line" "#FF0000" (Value.num 1) (Value.obj [])
    "sid" "lid"
  exact ⟨h.1 "water" rfl, h.2⟩

/-- C10: the image and video builders insert the very same layer descriptor
(given the same name, opacity and generated ids): its type is the raster
layer tag, not the image layer tag, it is visible, and its parameters are
exactly the generated source id and the given opacity; only the stored
source descriptors (image source vs video source) differ. -/
theorem claim_C10_image_video_raster (doc : GISDocument) (u : String) (c : Value) (us : Value)
    (name : String) (opacity : Value) (sid lid : String) :
    ∃ lyr, mapGet (add_image_layer doc (some u) (some c) name opacity sid lid).1.layers lid =
        some lyr ∧
      mapGet (add_video_layer doc (some us) (some c) name opacity sid lid).1.layers lid =
        some lyr ∧
      lyr.type = LayerType.RasterLayer ∧
      lyr.type ≠ LayerType.ImageLayer ∧
      lyr.visible = true ∧
      lyr.parameters = [("source", Value.str sid), ("opacity", opacity)] ∧
      (∃ src, mapGet (add_image_layer doc (some u) (some c) name opacity sid
          lid).1.sources sid = some src ∧ src.type = SourceType.ImageSource) ∧
      (∃ src, mapGet (add_video_layer doc (some us) (some c) name opacity sid
          lid).1.sources sid = some src ∧ src.type = SourceType.VideoSource) := by
  rw [add_image_layer_eq doc u c name opacity sid lid,
    add_video_layer_eq doc us c name opacity sid lid]
  refine ⟨{ name := name
            type := LayerType.RasterLayer
            visible := true
            parameters := [("source", Value.str sid), ("opacity", opacity)]
            filtersField := FiltersField.nullVal },
    mapGet_set_self doc.layers lid _, mapGet_set_self doc.layers lid _, rfl, ?_, rfl, rfl,
    ⟨_, mapGet_set_self doc.sources sid _, rfl⟩, ⟨_, mapGet_set_self doc.sources sid _, rfl⟩⟩
  show LayerType.RasterLayer ≠ LayerType.ImageLayer
  decide

/-- Concrete instance of C10 on the empty document. -/
theorem claim_C10_image_video_raster_witness :
    ∃ lyr, mapGet (add_image_layer emptyDoc (some "http://i") (some (Value.listV [])) "M"
        (Value.num 1) "sid" "lid").1.layers "lid" = some lyr ∧
      mapGet (add_video_layer emptyDoc (some (Value.listV [Value.str "http://v"]))
        (some (Value.listV [])) "M" (Value.num 1) "sid" "lid").1.layers "lid" = some lyr ∧
      lyr.type = LayerType.RasterLayer ∧
      lyr.type ≠ LayerType.ImageLayer ∧
      lyr.visible = true ∧
      lyr.parameters = [("source", Value.str "sid"), ("opacity", Value.num 1)] ∧
      (∃ src, mapGet (add_image_layer emptyDoc (some "http://i") (some (Value.listV [])) "M"
          (Value.num 1) "sid" "lid").1.sources "sid" = some src ∧
        src.type = SourceType.ImageSource) ∧
      (∃ src, mapGet (add_video_layer emptyDoc (some (Value.listV [Value.str "http://v"]))
          (some (Value.listV [])) "M" (Value.num 1) "sid" "lid").1.sources "sid" = some src ∧
        src.type = SourceType.VideoSource) :=
  claim_C10_image_video_raster emptyDoc "http://i" (Value.listV [])
    (Value.listV [Value.str "http://v"]) "M" (Value.num 1) "sid" "lid"

end JupyterGIS
